import Mathlib

/-!
# Verification of the Connect UI form scripts

Shallow embedding of the three form/list scripts of the `frappe-connect`
application excerpt:

* `src/connect/public/js/connect_settings.js` — Test Connection button,
  Refresh Schemas button, connection-status banner, stats dashboard;
* `src/connect/public/js/connect_message_log.js` — status indicators
  (form and list view) and the Retry Production action;
* `src/connect/public/js/connect_emission_rule.js` — the Manual Push
  dialog.

Server-side operations (`connect.api.test_connection`,
`connect.api.manual_produce`, …) are not part of the visible sources; where
a property depends on them they are modelled from the specification, and
each such definition says so in its doc comment.

JavaScript conventions captured here: an absent (`undefined`/`null`) field
is `Option.none`; `a || b` on strings treats `none` and `""` as falsy;
truthiness of a string field means present and non-empty.
-/

namespace Connect

/-- JavaScript-style `a || b` on an optional string: `none` and the empty
string are falsy and select the fallback. -/
def jsOr (a : Option String) (b : String) : String :=
  match a with
  | none => b
  | some s => if s = "" then b else s

/-- JavaScript truthiness of an optional string field: present and
non-empty. -/
def truthy (a : Option String) : Bool :=
  match a with
  | none => false
  | some s => s ≠ ""

/-! ## Connection health (connect_settings.js) -/

/-- One subsystem's health report inside a `test_connection` response:
`status` plus an optional human-readable `detail`. -/
structure Subsystem where
  status : String
  detail : Option String
deriving Repr, DecidableEq

/-- The `data` object of a `test_connection` response: per-subsystem
reports, each possibly absent. -/
structure HealthData where
  kafka : Option Subsystem
  schema_registry : Option Subsystem
deriving Repr, DecidableEq

/-- The `r.message` envelope the Test Connection callback receives:
`{ok, data, message?}`. -/
structure HealthResponse where
  ok : Bool
  data : HealthData
  message : Option String
deriving Repr, DecidableEq

/-- `_build_health_row(label, is_ok, detail)`: one row of the health
result, with icon and colour chosen from the ok flag. -/
structure HealthRow where
  label : String
  icon : String
  color : String
  detail : Option String
deriving Repr, DecidableEq

/-- The row constructor `_build_health_row` of connect_settings.js. -/
def build_health_row (label : String) (ok : Bool) (detail : Option String) : HealthRow :=
  { label := label
    icon := if ok then "✓" else "✗"
    color := if ok then "#28B463" else "#E74C3C"
    detail := detail }

/-- The Kafka row built by the Test Connection callback: when the
subsystem is not ok its detail falls back to "Connection failed"
(JavaScript `||`). Depends only on the kafka subsystem's own fields. -/
def kafka_health_row (k : Subsystem) : HealthRow :=
  build_health_row "Kafka Brokers" (k.status == "ok")
    (if k.status == "ok" then k.detail else some (jsOr k.detail "Connection failed"))

/-- The Schema Registry row built by the Test Connection callback.
Depends only on the schema-registry subsystem's own fields. -/
def registry_health_row (s : Subsystem) : HealthRow :=
  build_health_row "Schema Registry" (s.status == "ok")
    (if s.status == "ok" then s.detail else some (jsOr s.detail "Connection failed"))

/-- What the Test Connection callback renders: either the per-subsystem
health report (`frappe.msgprint` with rows) or a single message dialog
with no per-subsystem rows. -/
inductive TestOutcome where
  | report (title : String) (indicator : String) (rows : List HealthRow)
  | failure (title : String) (message : Option String) (indicator : String)
deriving Repr, DecidableEq

/-- Callback of the Test Connection button (`_add_test_connection_button`).
`r = none` models a callback with no `r.message`. The result is `none`
exactly when the script would raise a TypeError: with `ok` truthy it reads
`data.kafka.detail` / `data.schema_registry.detail`, which throws when the
subsystem object is absent. -/
def test_connection_callback (r : Option HealthResponse) : Option TestOutcome :=
  match r with
  | some m =>
    if m.ok then
      match m.data.kafka, m.data.schema_registry with
      | some k, some s =>
        let all_ok := k.status == "ok" && s.status == "ok"
        some (.report (if all_ok then "All Connected" else "Connection Issues")
                      (if all_ok then "green" else "red")
                      [kafka_health_row k, registry_health_row s])
      | _, _ => none
    else some (.failure "Connection Test Failed" m.message "red")
  | none => some (.failure "Connection Test Failed" (some "Unexpected error") "red")

/-- What `_update_connection_status` renders into the status banner. -/
inductive BannerOutcome where
  | statusBanner (alertClass : String) (pill : String) (title : String)
      (kafka_mark : String) (sr_mark : String)
  | disconnected (message : Option String)
deriving Repr, DecidableEq

/-- Callback of `_update_connection_status` (the banner refresh). Here a
missing subsystem object is harmless: `data.kafka && data.kafka.status === "ok"`
short-circuits to false. -/
def update_status_callback (r : Option HealthResponse) : BannerOutcome :=
  match r with
  | some m =>
    if m.ok then
      let kafka_ok := match m.data.kafka with
        | some k => k.status == "ok"
        | none => false
      let sr_ok := match m.data.schema_registry with
        | some s => s.status == "ok"
        | none => false
      let all_ok := kafka_ok && sr_ok
      .statusBanner (if all_ok then "success" else "warning")
        (if all_ok then "green" else "orange")
        (if all_ok then "Connected" else "Connection Issues")
        (if kafka_ok then "✓" else "✗")
        (if sr_ok then "✓" else "✗")
    else .disconnected m.message
  | none => .disconnected (some "Check configuration")

/-- Modelled from the spec: the backend probe `connect.api.test_connection`
is absent from the visible sources. Per §4.6 of the spec it performs one
lightweight connectivity check against the broker cluster and one against
the schema registry, returning a structured Ok/Error status plus detail for
each; errors from one subsystem do not suppress the check of the other. -/
def test_connection_probe (broker_reachable registry_reachable : Bool)
    (broker_detail registry_detail : String) : HealthData :=
  { kafka := some
      { status := if broker_reachable then "ok" else "error"
        detail := some broker_detail }
    schema_registry := some
      { status := if registry_reachable then "ok" else "error"
        detail := some registry_detail } }

/-! ## Stats dashboard (connect_settings.js, `_add_stats_section`) -/

/-- One element of the `stats` list returned by `get_kafka_stats`. -/
structure Stat where
  direction : String
  status : String
  count : Nat
deriving Repr, DecidableEq

/-- The body of the `stats.forEach` loop in `_add_stats_section`,
accumulating `(total_produced, total_consumed, total_failed)`. -/
def stats_step (acc : Nat × Nat × Nat) (s : Stat) : Nat × Nat × Nat :=
  let p := if s.direction == "Produced" then acc.1 + s.count else acc.1
  let c := if s.direction == "Consumed" then acc.2.1 + s.count else acc.2.1
  let f := if s.status == "Failed" || s.status == "Dead Letter"
           then acc.2.2 + s.count else acc.2.2
  (p, c, f)

/-- The three dashboard totals computed by `_add_stats_section` from the
returned stats list alone (initial totals all zero). -/
def stats_totals (stats : List Stat) : Nat × Nat × Nat :=
  stats.foldl stats_step (0, 0, 0)

/-- Specification-side total: the sum of `count` over the entries of the
list satisfying a predicate. -/
def sum_where (p : Stat → Bool) (stats : List Stat) : Nat :=
  ((stats.filter p).map Stat.count).sum

/-! ## Refresh Schemas (connect_settings.js, `_add_refresh_schemas_button`) -/

/-- The `r.message` envelope of a `refresh_schemas` call: `{ok, message?}`. -/
structure RefreshResponse where
  ok : Bool
  message : Option String
deriving Repr, DecidableEq

/-- What the Refresh Schemas callback renders: a green `frappe.show_alert`
on success, or a red `frappe.msgprint` dialog on failure. -/
inductive RefreshOutcome where
  | alert (message : String) (indicator : String)
  | dialog (title : String) (message : Option String) (indicator : String)
deriving Repr, DecidableEq

/-- Callback of the Refresh Schemas button. Note: the "Unknown error"
fallback is taken only when `r.message` itself is absent; a present
response without a `message` field surfaces an absent message. -/
def refresh_callback (r : Option RefreshResponse) : RefreshOutcome :=
  match r with
  | some m =>
    if m.ok then .alert "Schema cache refreshed successfully" "green"
    else .dialog "Schema Refresh Failed" m.message "red"
  | none => .dialog "Schema Refresh Failed" (some "Unknown error") "red"

/-! ## Message Log form and list view (connect_message_log.js) -/

/-- The **own properties** of the `status_colors` object literal of
`_set_status_indicator` (form view): colour per known status, `none` for a
key that is not an own property. Exact for the seven known statuses; for
the full JavaScript lookup semantics including the prototype chain see
`status_colors_js`. -/
def status_colors (s : String) : Option String :=
  if s = "Pending" then some "orange"
  else if s = "Sent" then some "blue"
  else if s = "Delivered" then some "blue"
  else if s = "Failed" then some "red"
  else if s = "Processed" then some "green"
  else if s = "Skipped" then some "grey"
  else if s = "Dead Letter" then some "darkgrey"
  else none

/-- `_set_status_indicator`: the page indicator `(label, colour)` set on
the form, with the `|| "grey"` fallback for unknown statuses. -/
def set_status_indicator (status : String) : String × String :=
  (status, (status_colors status).getD "grey")

/-- The **own properties** of the `status_map` object literal of the list
view's `get_indicator`: `(label, colour, filter)` per known status, `none`
for a key that is not an own property. Exact for the seven known statuses;
for the full JavaScript lookup semantics including the prototype chain see
`status_map_js`. -/
def status_map (s : String) : Option (String × String × String) :=
  if s = "Pending" then some ("Pending", "orange", "status,=,Pending")
  else if s = "Sent" then some ("Sent", "blue", "status,=,Sent")
  else if s = "Delivered" then some ("Delivered", "blue", "status,=,Delivered")
  else if s = "Failed" then some ("Failed", "red", "status,=,Failed")
  else if s = "Processed" then some ("Processed", "green", "status,=,Processed")
  else if s = "Skipped" then some ("Skipped", "grey", "status,=,Skipped")
  else if s = "Dead Letter" then some ("Dead Letter", "darkgrey", "status,=,Dead Letter")
  else none

/-- The list view's `get_indicator(doc)`: map lookup with the
`[__(doc.status), "grey", ""]` fallback. -/
def get_indicator (doc_status : String) : String × String × String :=
  (status_map doc_status).getD (doc_status, "grey", "")

/-- The seven Message Log statuses the UI distinguishes. -/
def known_statuses : List String :=
  ["Pending", "Sent", "Delivered", "Failed", "Processed", "Skipped", "Dead Letter"]

/-- The member names of `Object.prototype` in ECMAScript (including the
Annex B legacy accessors): bracket lookup of one of these on an object
literal that does not shadow it returns the inherited member, which is a
truthy function (or, for `__proto__`, the prototype object itself), not
`undefined`. None of the seven known statuses shadows one of these. -/
def object_prototype_keys : List String :=
  ["constructor", "hasOwnProperty", "isPrototypeOf", "propertyIsEnumerable",
   "toLocaleString", "toString", "valueOf", "__proto__",
   "__defineGetter__", "__defineSetter__", "__lookupGetter__", "__lookupSetter__"]

/-- Result of a JavaScript bracket lookup on an object literal: an own
property of the literal, a truthy member inherited from
`Object.prototype`, or `undefined`. -/
inductive JsLookup (α : Type) where
  | own (v : α)
  | inherited (name : String)
  | missing
deriving Repr, DecidableEq

/-- The full JavaScript lookup `status_colors[status]` of
`_set_status_indicator`, prototype chain included: the seven own keys
yield their colour, an `Object.prototype` member name yields the
inherited truthy member, anything else is `undefined`. -/
def status_colors_js (s : String) : JsLookup String :=
  if s = "Pending" then .own "orange"
  else if s = "Sent" then .own "blue"
  else if s = "Delivered" then .own "blue"
  else if s = "Failed" then .own "red"
  else if s = "Processed" then .own "green"
  else if s = "Skipped" then .own "grey"
  else if s = "Dead Letter" then .own "darkgrey"
  else if s ∈ object_prototype_keys then .inherited s
  else .missing

/-- A JavaScript value flowing out of a `x || fallback` on a lookup
result: a string, or a truthy member inherited from `Object.prototype`
(a function or the prototype object — in particular not a string). -/
inductive JsValue where
  | str (s : String)
  | protoMember (name : String)
deriving Repr, DecidableEq

/-- `_set_status_indicator` with full lookup semantics: the page indicator
`(label, colour)` where colour is `status_colors[status] || "grey"` — the
`||` fallback fires only when the lookup is `undefined`, not on a truthy
inherited prototype member. -/
def set_status_indicator_js (status : String) : String × JsValue :=
  (status,
    match status_colors_js status with
    | .own c => .str c
    | .inherited n => .protoMember n
    | .missing => .str "grey")

/-- The full JavaScript lookup `status_map[doc.status]` of the list view's
`get_indicator`, prototype chain included. -/
def status_map_js (s : String) : JsLookup (String × String × String) :=
  if s = "Pending" then .own ("Pending", "orange", "status,=,Pending")
  else if s = "Sent" then .own ("Sent", "blue", "status,=,Sent")
  else if s = "Delivered" then .own ("Delivered", "blue", "status,=,Delivered")
  else if s = "Failed" then .own ("Failed", "red", "status,=,Failed")
  else if s = "Processed" then .own ("Processed", "green", "status,=,Processed")
  else if s = "Skipped" then .own ("Skipped", "grey", "status,=,Skipped")
  else if s = "Dead Letter" then .own ("Dead Letter", "darkgrey", "status,=,Dead Letter")
  else if s ∈ object_prototype_keys then .inherited s
  else .missing

/-- What the list view's `get_indicator(doc)` returns under full lookup
semantics: a `(label, colour, filter)` triple, or — when `doc.status`
names an `Object.prototype` member — the inherited truthy member, on
which the `|| [__(doc.status), "grey", ""]` fallback does not fire. -/
inductive IndicatorResult where
  | triple (label color filter : String)
  | protoMember (name : String)
deriving Repr, DecidableEq

/-- The list view's `get_indicator(doc)` with full lookup semantics. -/
def get_indicator_js (doc_status : String) : IndicatorResult :=
  match status_map_js doc_status with
  | .own (l, c, f) => .triple l c f
  | .inherited n => .protoMember n
  | .missing => .triple doc_status "grey" ""

/-- The fields of a Connect Message Log document the form script reads. -/
structure LogDoc where
  status : String
  direction : String
  source_doctype : Option String
  source_docname : Option String
  rule_name : Option String
deriving Repr, DecidableEq

/-- The guard of `_add_retry_button`: the Retry Production button is added
unless one of the two early returns fires. -/
def retry_offered (d : LogDoc) : Bool :=
  if d.status ≠ "Failed" ∨ d.direction ≠ "Produced" then false
  else if ¬ truthy d.source_doctype ∨ ¬ truthy d.source_docname ∨ ¬ truthy d.rule_name
  then false
  else true

/-- A `frappe.call` to the produce backend: method name plus the three
arguments of its `args` object. -/
structure RpcCall where
  method : String
  doctype : Option String
  docname : Option String
  rule_name : Option String
deriving Repr, DecidableEq

/-- The call issued by the Retry Production action (connect_message_log.js):
`connect.api.manual_produce` with the entry's original source document
and rule. -/
def retry_call (d : LogDoc) : RpcCall :=
  { method := "connect.api.manual_produce"
    doctype := d.source_doctype
    docname := d.source_docname
    rule_name := d.rule_name }

/-- The call issued by the Manual Push dialog's primary action
(connect_emission_rule.js): `connect.api.manual_produce` with the dialog
values and the rule document's name. -/
def manual_push_call (values_doctype values_docname frm_name : String) : RpcCall :=
  { method := "connect.api.manual_produce"
    doctype := some values_doctype
    docname := some values_docname
    rule_name := some frm_name }

/-- Modelled from the spec: the backend operation `connect.api.manual_produce`
is absent from the visible sources. Per §4.3–§4.4 of the spec, a
(re-)produce attempt opens a **new** Message Log entry (status Pending,
direction Produced) referencing the given source document and rule before
any network call, and never mutates existing entries — a Failed entry is
never rewritten. This models the log-opening effect of one invocation. -/
def manual_produce_open (log : List LogDoc) (dt dn rn : String) : List LogDoc :=
  log ++ [{ status := "Pending"
            direction := "Produced"
            source_doctype := some dt
            source_docname := some dn
            rule_name := some rn }]

/-! ## Manual produce callbacks (both scripts) -/

/-- The `data` object of a successful `manual_produce` response; per the
spec contract `manual_produce(doctype, docname, rule_name) -> {idempotency_key}`. -/
structure ProduceData where
  idempotency_key : String
deriving Repr, DecidableEq

/-- The `r.message` envelope of a `manual_produce` call. -/
structure ProduceResponse where
  ok : Bool
  data : ProduceData
  message : Option String
deriving Repr, DecidableEq

/-- What a manual-produce callback renders: a green alert whose message
interpolates `key` into `template` (plus whether the form reloads), or a
red message dialog. -/
inductive ProduceOutcome where
  | alert (template : String) (key : String) (indicator : String) (reload : Bool)
  | dialog (title : String) (message : Option String) (indicator : String)
deriving Repr, DecidableEq

/-- Callback of the Retry Production call (connect_message_log.js): on
success, alert with the response's `idempotency_key` and reload the form. -/
def retry_callback (r : Option ProduceResponse) : ProduceOutcome :=
  match r with
  | some m =>
    if m.ok then
      .alert "Message re-produced with key: {0}" m.data.idempotency_key "green" true
    else .dialog "Production Failed" m.message "red"
  | none => .dialog "Production Failed" (some "Unknown error") "red"

/-- Callback of the Manual Push call (connect_emission_rule.js): on
success, alert with the response's `idempotency_key`; no reload. -/
def push_callback (r : Option ProduceResponse) : ProduceOutcome :=
  match r with
  | some m =>
    if m.ok then
      .alert "Message produced! Key: {0}" m.data.idempotency_key "green" false
    else .dialog "Push Failed" m.message "red"
  | none => .dialog "Push Failed" (some "Unknown error") "red"

/-! ## Manual Push dialog (connect_emission_rule.js) -/

/-- The guard in the Emission Rule `refresh` handler: the Manual Push
button is added only when the document is saved (not local) and enabled. -/
def manual_push_offered (islocal enabled : Bool) : Bool :=
  !islocal && enabled

/-- A field configuration of the Manual Push dialog. The source's
`default` attribute is spelled `defaultVal`. -/
structure DialogField where
  label : String
  fieldname : String
  fieldtype : String
  options : Option String
  defaultVal : Option String
  read_only : Bool
  reqd : Bool
deriving Repr, DecidableEq

/-- The first field of the Manual Push dialog: the Source DocType link,
read-only, defaulted to the rule's configured `source_doctype`. -/
def manual_push_doctype_field (source_doctype : Option String) : DialogField :=
  { label := "Source DocType"
    fieldname := "doctype"
    fieldtype := "Link"
    options := some "DocType"
    defaultVal := source_doctype
    read_only := true
    reqd := true }

/-- The second field of the Manual Push dialog: the Document Name dynamic
link the operator fills in. -/
def manual_push_docname_field : DialogField :=
  { label := "Document Name"
    fieldname := "docname"
    fieldtype := "Dynamic Link"
    options := some "doctype"
    defaultVal := none
    read_only := false
    reqd := true }

/-- Value a dialog field contributes on submit: the dialog UI gives the
operator no way to change a read-only field, so it always submits its
configured default; an editable field submits the operator's input. -/
def submitted_value (f : DialogField) (user_input : Option String) : Option String :=
  if f.read_only then f.defaultVal else user_input

/-! ## Theorems -/

/-- Auxiliary: `sum_where` over a cons. -/
theorem sum_where_cons (p : Stat → Bool) (x : Stat) (t : List Stat) :
    sum_where p (x :: t) = (if p x then x.count else 0) + sum_where p t := by
  by_cases hp : p x <;> simp [sum_where, List.filter_cons, hp]

/-- Auxiliary: the `forEach` fold of `_add_stats_section` from an arbitrary
starting accumulator computes the three filtered sums. -/
theorem stats_foldl_eq (stats : List Stat) : ∀ a b c : Nat,
    stats.foldl stats_step (a, b, c) =
      (a + sum_where (fun s => s.direction == "Produced") stats,
       b + sum_where (fun s => s.direction == "Consumed") stats,
       c + sum_where (fun s => s.status == "Failed" || s.status == "Dead Letter") stats) := by
  induction stats with
  | nil => intro a b c; simp [sum_where]
  | cons x t ih =>
    intro a b c
    simp only [List.foldl_cons, stats_step]
    rw [ih]
    simp only [sum_where_cons, Prod.mk.injEq]
    refine ⟨?_, ?_, ?_⟩ <;> split_ifs <;> omega

/-- C4: the dashboard totals of `_add_stats_section` are pure sums over the
returned stats list: Produced sums `count` over entries with direction
"Produced", Consumed over direction "Consumed", and Failed over entries
whose status is "Failed" or "Dead Letter" (of either direction, since the
status test ignores direction); the fold consults nothing but the list. -/
theorem get_kafka_stats_totals (stats : List Stat) :
    stats_totals stats =
      (sum_where (fun s => s.direction == "Produced") stats,
       sum_where (fun s => s.direction == "Consumed") stats,
       sum_where (fun s => s.status == "Failed" || s.status == "Dead Letter") stats) := by
  simpa using stats_foldl_eq stats 0 0 0

/-- C7: the statuses the two indicator maps know are exactly the seven
Message Log statuses, the form-view and list-view colours agree on every
status string, and each known status has the specified colour in both
maps (Pending orange, Sent blue, Delivered blue, Failed red, Processed
green, Skipped grey, Dead Letter darkgrey). -/
theorem status_palette_consistent :
    (∀ s, (status_colors s).isSome = true ↔ s ∈ known_statuses)
  ∧ (∀ s, (status_map s).isSome = true ↔ s ∈ known_statuses)
  ∧ (∀ s, (set_status_indicator s).2 = (get_indicator s).2.1)
  ∧ set_status_indicator "Pending" = ("Pending", "orange")
  ∧ set_status_indicator "Sent" = ("Sent", "blue")
  ∧ set_status_indicator "Delivered" = ("Delivered", "blue")
  ∧ set_status_indicator "Failed" = ("Failed", "red")
  ∧ set_status_indicator "Processed" = ("Processed", "green")
  ∧ set_status_indicator "Skipped" = ("Skipped", "grey")
  ∧ set_status_indicator "Dead Letter" = ("Dead Letter", "darkgrey")
  ∧ get_indicator "Pending" = ("Pending", "orange", "status,=,Pending")
  ∧ get_indicator "Sent" = ("Sent", "blue", "status,=,Sent")
  ∧ get_indicator "Delivered" = ("Delivered", "blue", "status,=,Delivered")
  ∧ get_indicator "Failed" = ("Failed", "red", "status,=,Failed")
  ∧ get_indicator "Processed" = ("Processed", "green", "status,=,Processed")
  ∧ get_indicator "Skipped" = ("Skipped", "grey", "status,=,Skipped")
  ∧ get_indicator "Dead Letter" = ("Dead Letter", "darkgrey", "status,=,Dead Letter") := by
  refine ⟨?_, ?_, ?_, ?_⟩
  · intro s
    unfold status_colors
    split_ifs <;> simp_all [known_statuses]
  · intro s
    unfold status_map
    split_ifs <;> simp_all [known_statuses]
  · intro s
    unfold set_status_indicator get_indicator status_colors status_map
    split_ifs <;> rfl
  · decide

/-- C10 counterexample: the unknown status "constructor" names an
`Object.prototype` member, so both object-literal lookups yield the
inherited truthy member and the `||` grey fallback never fires: the list
view does not return the claimed `(raw status, grey, empty filter)`
triple, and the form view does not fall back to grey. -/
theorem status_indicator_proto_counterexample :
    "constructor" ∉ known_statuses
  ∧ get_indicator_js "constructor" = .protoMember "constructor"
  ∧ get_indicator_js "constructor" ≠ .triple "constructor" "grey" ""
  ∧ set_status_indicator_js "constructor" = ("constructor", .protoMember "constructor")
  ∧ set_status_indicator_js "constructor" ≠ ("constructor", .str "grey") := by
  decide

/-- C10 amended: neither indicator function fails on an unrecognised
status. For a status outside the seven known values that does not name an
`Object.prototype` member, the list view returns the raw status with
colour grey and an empty filter and the form view falls back to grey; for
a status that names an `Object.prototype` member, both lookups return the
inherited truthy member and the grey fallback does not fire. -/
theorem status_indicator_fallback_amended (s : String) (h : s ∉ known_statuses) :
    (s ∉ object_prototype_keys →
       get_indicator_js s = .triple s "grey" "" ∧
       set_status_indicator_js s = (s, .str "grey"))
  ∧ (s ∈ object_prototype_keys →
       get_indicator_js s = .protoMember s ∧
       set_status_indicator_js s = (s, .protoMember s)) := by
  constructor
  · intro hp
    have h1 : status_map_js s = .missing := by
      unfold status_map_js
      split_ifs <;> simp_all [known_statuses]
    have h2 : status_colors_js s = .missing := by
      unfold status_colors_js
      split_ifs <;> simp_all [known_statuses]
    exact ⟨by simp [get_indicator_js, h1], by simp [set_status_indicator_js, h2]⟩
  · intro hp
    have h1 : status_map_js s = .inherited s := by
      unfold status_map_js
      split_ifs <;> simp_all [known_statuses]
    have h2 : status_colors_js s = .inherited s := by
      unfold status_colors_js
      split_ifs <;> simp_all [known_statuses]
    exact ⟨by simp [get_indicator_js, h1], by simp [set_status_indicator_js, h2]⟩

/-- Witness for C10 amended at the unknown, non-prototype status "Bogus". -/
theorem status_indicator_fallback_amended_witness :
    "Bogus" ∉ known_statuses ∧
    (get_indicator_js "Bogus" = .triple "Bogus" "grey" "" ∧
     set_status_indicator_js "Bogus" = ("Bogus", .str "grey")) :=
  ⟨by decide, (status_indicator_fallback_amended "Bogus" (by decide)).1 (by decide)⟩

/-- C2: the Retry Production button is offered exactly when status is
"Failed", direction is "Produced" and the three source fields are present
(truthy); its action calls `connect.api.manual_produce` with exactly the
entry's original source_doctype, source_docname and rule_name; and the
(spec-modelled) produce operation appends a fresh Pending/Produced entry
for that document and rule while leaving every existing entry unchanged. -/
theorem retry_button_contract (d : LogDoc) (log : List LogDoc) (dt dn rn : String) :
    (retry_offered d = true ↔
        d.status = "Failed" ∧ d.direction = "Produced" ∧
        truthy d.source_doctype = true ∧ truthy d.source_docname = true ∧
        truthy d.rule_name = true)
  ∧ retry_call d = { method := "connect.api.manual_produce",
                     doctype := d.source_doctype,
                     docname := d.source_docname,
                     rule_name := d.rule_name }
  ∧ (manual_produce_open log dt dn rn).take log.length = log
  ∧ (manual_produce_open log dt dn rn).drop log.length =
      [{ status := "Pending", direction := "Produced",
         source_doctype := some dt, source_docname := some dn,
         rule_name := some rn }] := by
  refine ⟨?_, rfl, by simp [manual_produce_open], by simp [manual_produce_open]⟩
  unfold retry_offered
  constructor
  · intro hof
    split_ifs at hof with h1 h2
    push_neg at h1 h2
    exact ⟨h1.1, h1.2, h2.1, h2.2.1, h2.2.2⟩
  · rintro ⟨hs, hd, t1, t2, t3⟩
    have hA : ¬(d.status ≠ "Failed" ∨ d.direction ≠ "Produced") := by simp [hs, hd]
    have hB : ¬(¬ truthy d.source_doctype ∨ ¬ truthy d.source_docname ∨
        ¬ truthy d.rule_name) := by simp [t1, t2, t3]
    rw [if_neg hA, if_neg hB]

/-- C3: the Manual Push dialog's primary action and the Retry Production
action issue the same backend call — `connect.api.manual_produce` with the
same argument shape (doctype, docname, rule_name); on matching source
values the two constructed calls are equal. -/
theorem manual_push_retry_same_call (d : LogDoc) (dt dn rn : String)
    (h1 : d.source_doctype = some dt) (h2 : d.source_docname = some dn)
    (h3 : d.rule_name = some rn) :
    retry_call d = manual_push_call dt dn rn ∧
    (retry_call d).method = "connect.api.manual_produce" := by
  simp [retry_call, manual_push_call, h1, h2, h3]

/-- Witness for C3 at a concrete failed entry. -/
theorem manual_push_retry_same_call_witness :
    (⟨"Failed", "Produced", some "Loan", some "L-0001", some "loan-rule"⟩ : LogDoc).source_doctype
        = some "Loan" ∧
    (retry_call ⟨"Failed", "Produced", some "Loan", some "L-0001", some "loan-rule"⟩ =
       manual_push_call "Loan" "L-0001" "loan-rule" ∧
     (retry_call ⟨"Failed", "Produced", some "Loan", some "L-0001", some "loan-rule"⟩).method =
       "connect.api.manual_produce") :=
  ⟨rfl, manual_push_retry_same_call _ "Loan" "L-0001" "loan-rule" rfl rfl rfl⟩

/-- C5: on a successful `manual_produce` response (ok truthy), both the
retry callback and the manual-push callback render a green alert whose
displayed key is exactly the response's `idempotency_key` field. -/
theorem manual_produce_key_display (m : ProduceResponse) (h : m.ok = true) :
    retry_callback (some m) =
      .alert "Message re-produced with key: {0}" m.data.idempotency_key "green" true
  ∧ push_callback (some m) =
      .alert "Message produced! Key: {0}" m.data.idempotency_key "green" false := by
  constructor <;> simp [retry_callback, push_callback, h]

/-- Witness for C5 at a concrete successful response. -/
theorem manual_produce_key_display_witness :
    (⟨true, ⟨"a1b2c3"⟩, none⟩ : ProduceResponse).ok = true ∧
    (retry_callback (some ⟨true, ⟨"a1b2c3"⟩, none⟩) =
       .alert "Message re-produced with key: {0}" "a1b2c3" "green" true ∧
     push_callback (some ⟨true, ⟨"a1b2c3"⟩, none⟩) =
       .alert "Message produced! Key: {0}" "a1b2c3" "green" false) :=
  ⟨rfl, manual_produce_key_display ⟨true, ⟨"a1b2c3"⟩, none⟩ rfl⟩

/-- C6: on any test_connection response with ok true (and both subsystem
objects present, as the contract guarantees), the rendered health result
contains both the Kafka Brokers row and the Schema Registry row, each a
function of that subsystem's own status and detail alone; an error in one
subsystem never suppresses the other's row. -/
theorem test_connection_shows_both_rows (m : HealthResponse) (k s : Subsystem)
    (hok : m.ok = true) (hk : m.data.kafka = some k)
    (hs : m.data.schema_registry = some s) :
    test_connection_callback (some m) =
      some (.report
        (if k.status == "ok" && s.status == "ok" then "All Connected" else "Connection Issues")
        (if k.status == "ok" && s.status == "ok" then "green" else "red")
        [kafka_health_row k, registry_health_row s]) := by
  simp [test_connection_callback, hok, hk, hs]

/-- Witness for C6: registry in error, broker ok — both rows rendered. -/
theorem test_connection_shows_both_rows_witness :
    (⟨true, ⟨some ⟨"ok", some "2 brokers"⟩, some ⟨"error", none⟩⟩, none⟩ : HealthResponse).ok
        = true ∧
    test_connection_callback
        (some ⟨true, ⟨some ⟨"ok", some "2 brokers"⟩, some ⟨"error", none⟩⟩, none⟩) =
      some (.report "Connection Issues" "red"
        [⟨"Kafka Brokers", "✓", "#28B463", some "2 brokers"⟩,
         ⟨"Schema Registry", "✗", "#E74C3C", some "Connection failed"⟩]) := by
  refine ⟨rfl, ?_⟩
  have h := test_connection_shows_both_rows
    ⟨true, ⟨some ⟨"ok", some "2 brokers"⟩, some ⟨"error", none⟩⟩, none⟩
    ⟨"ok", some "2 brokers"⟩ ⟨"error", none⟩ rfl rfl rfl
  simpa [kafka_health_row, registry_health_row, build_health_row, jsOr] using h

/-- C1 counterexample: on a response whose envelope `ok` is false — as the
claim's "overall ok:false" reads — the Test Connection callback renders a
single opaque error dialog, not the per-subsystem report: the claim as
stated fails on the code. -/
theorem partial_failure_opaque_counterexample :
    test_connection_callback (some ⟨false,
        test_connection_probe false true "Broker unreachable" "Registry reachable",
        some "Kafka broker unreachable"⟩) =
      some (.failure "Connection Test Failed" (some "Kafka broker unreachable") "red")
  ∧ test_connection_callback (some ⟨false,
        test_connection_probe false true "Broker unreachable" "Registry reachable",
        some "Kafka broker unreachable"⟩) ≠
      some (.report "Connection Issues" "red"
        [kafka_health_row ⟨"error", some "Broker unreachable"⟩,
         registry_health_row ⟨"ok", some "Registry reachable"⟩]) := by
  exact ⟨rfl, by decide⟩

/-- C1 amended: with the broker unreachable and the registry reachable the
probe data is kafka error / schema_registry ok, and — provided the
envelope `ok` is true, which is what the code requires for the
per-subsystem rendering — both the msgprint result and the status banner
surface the outage per subsystem ("Connection Issues", red dialog with a
row per subsystem, warning banner with Kafka ✗ and Schema Registry ✓)
rather than a single opaque error message. -/
theorem partial_failure_surfaced (dk ds : String) (m : Option String) :
    test_connection_callback (some ⟨true, test_connection_probe false true dk ds, m⟩) =
      some (.report "Connection Issues" "red"
        [build_health_row "Kafka Brokers" false (some (jsOr (some dk) "Connection failed")),
         build_health_row "Schema Registry" true (some ds)])
  ∧ update_status_callback (some ⟨true, test_connection_probe false true dk ds, m⟩) =
      .statusBanner "warning" "orange" "Connection Issues" "✗" "✓" := by
  constructor <;>
    simp [test_connection_callback, update_status_callback, test_connection_probe,
      kafka_health_row, registry_health_row]

/-- C8 counterexample: a failure response that carries no `message` field
is surfaced with an absent message, not with the "Unknown error" fallback
— that fallback fires only when the call yields no response at all. -/
theorem refresh_no_message_counterexample :
    refresh_callback (some ⟨false, none⟩) = .dialog "Schema Refresh Failed" none "red"
  ∧ refresh_callback (some ⟨false, none⟩) ≠
      .dialog "Schema Refresh Failed" (some "Unknown error") "red" := by
  exact ⟨rfl, by decide⟩

/-- C8 amended: the Refresh Schemas callback reports success exactly when
the response is present with ok truthy; a present failure response
surfaces its own `message` field (absent if the response has none); the
"Unknown error" fallback is used exactly when there is no response
payload at all. -/
theorem refresh_schemas_reporting (r : Option RefreshResponse) :
    (refresh_callback r = .alert "Schema cache refreshed successfully" "green" ↔
       ∃ m, r = some m ∧ m.ok = true)
  ∧ (∀ m, r = some m → m.ok = false →
       refresh_callback r = .dialog "Schema Refresh Failed" m.message "red")
  ∧ (r = none →
       refresh_callback r = .dialog "Schema Refresh Failed" (some "Unknown error") "red") := by
  refine ⟨?_, ?_, ?_⟩
  · cases r with
    | none => simp [refresh_callback]
    | some m => cases hm : m.ok <;> simp [refresh_callback, hm]
  · intro m hm hok
    subst hm
    simp [refresh_callback, hok]
  · intro hr
    subst hr
    rfl

/-- Witness for C8 amended: all three branches at concrete responses. -/
theorem refresh_schemas_reporting_witness :
    refresh_callback (some ⟨true, none⟩) =
      .alert "Schema cache refreshed successfully" "green" ∧
    refresh_callback (some ⟨false, some "registry down"⟩) =
      .dialog "Schema Refresh Failed" (some "registry down") "red" ∧
    refresh_callback none = .dialog "Schema Refresh Failed" (some "Unknown error") "red" :=
  ⟨(refresh_schemas_reporting (some ⟨true, none⟩)).1.mpr ⟨⟨true, none⟩, rfl, rfl⟩,
   (refresh_schemas_reporting (some ⟨false, some "registry down"⟩)).2.1
     ⟨false, some "registry down"⟩ rfl rfl,
   (refresh_schemas_reporting none).2.2 rfl⟩

/-- C9: Manual Push is offered exactly for a saved (non-local) and enabled
Emission Rule; the dialog's Source DocType field is read-only with the
rule's configured source_doctype as its default, so whatever the operator
does, the submitted doctype value is the rule's own source_doctype. -/
theorem manual_push_guard_and_fixed_doctype (islocal enabled : Bool)
    (src user : Option String) :
    (manual_push_offered islocal enabled = true ↔ islocal = false ∧ enabled = true)
  ∧ (manual_push_doctype_field src).read_only = true
  ∧ (manual_push_doctype_field src).defaultVal = src
  ∧ submitted_value (manual_push_doctype_field src) user = src := by
  refine ⟨?_, rfl, rfl, rfl⟩
  cases islocal <;> cases enabled <;> simp [manual_push_offered]

end Connect
